import Mathlib

/-!
Verification development for the company-knowledge-base repository.

The upload API endpoints (src/apps/upload-api/src/api/upload.py and
src/apps/upload-api/src/api/status.py) are embedded as explicit
state-passing functions over an `ApiState` that models the `uploads`
database table, the MinIO object store, and a counter of compose
operations performed on the object store.  The Temporal worker
activities and workflow (src/apps/workers/src/worker.py) are embedded
as pure functions.  Nondeterministic inputs of the handlers (the
generated uuid, the database-assigned creation timestamp, the request
body) are passed as explicit parameters.
-/

namespace CompanyKB

/-- Settings from src/apps/upload-api/src/config.py (the fields the
claims refer to; values are the defaults declared in the source). -/
structure Settings where
  minio_bucket : String
  max_upload_size : Nat
  chunk_size : Nat
  embedding_model : String
  embedding_dimensions : Nat
deriving DecidableEq

/-- The global settings instance (config.py, defaults). -/
def settings : Settings :=
  { minio_bucket := "document-uploads"
  , max_upload_size := 10737418240
  , chunk_size := 104857600
  , embedding_model := "text-embedding-3-small"
  , embedding_dimensions := 1536 }

/-- One row of the `uploads` table, with the columns the source reads
and writes (INSERT in upload.py line 52, SELECT in status.py).
Timestamps are modelled as natural numbers. -/
structure UploadRow where
  id : String
  filename : String
  file_size : Nat
  content_type : Option String
  minio_bucket : String
  minio_key : String
  upload_status : String
  processing_status : Option String
  created_at : Nat
  completed_at : Option Nat
  metadata : Option String
deriving DecidableEq

/-- The persisted state the handlers can touch: the `uploads` table,
the MinIO object store (key, content), and a count of compose
operations performed on the object store (no handler in the source
ever invokes a compose; the multipart compose is a TODO in
upload.py line 146). -/
structure ApiState where
  uploads : List UploadRow
  objects : List (String × String)
  composeOps : Nat
deriving DecidableEq

/-- Response of POST /upload (upload.py lines 73-79). -/
structure UploadFileResponse where
  upload_id : String
  filename : String
  file_size : Nat
  status : String
  message : String
deriving DecidableEq

/-- POST /upload (upload.py lines 18-83): derives the object key
`{upload_id}/{filename}`, streams the body to MinIO under that key,
and inserts an `uploads` row whose `minio_key` is that same key. -/
def upload_file (s : ApiState) (upload_id filename : String)
    (content_type : Option String) (content : String) (created_at : Nat) :
    UploadFileResponse × ApiState :=
  let object_name := upload_id ++ "/" ++ filename
  let file_size := content.length
  let row : UploadRow :=
    { id := upload_id, filename := filename, file_size := file_size
    , content_type := content_type, minio_bucket := settings.minio_bucket
    , minio_key := object_name, upload_status := "completed"
    , processing_status := none, created_at := created_at
    , completed_at := none, metadata := none }
  ({ upload_id := upload_id, filename := filename, file_size := file_size
   , status := "completed"
   , message := "File uploaded successfully. Processing will begin shortly." }
  , { s with objects := s.objects ++ [(object_name, content)]
           , uploads := s.uploads ++ [row] })

/-- Response of POST /upload/multipart/init (upload.py lines 103-108). -/
structure InitMultipartResponse where
  upload_id : String
  filename : String
  object_name : String
  message : String
deriving DecidableEq

/-- POST /upload/multipart/init (upload.py lines 86-112): computes the
object key `{upload_id}/{filename}` and returns it.  The MinIO
multipart initialisation and any database write are TODOs in the
source (lines 98-99), so the state is returned unchanged: no session
record is created, for any filename, the empty one included. -/
def init_multipart_upload (s : ApiState) (upload_id filename : String)
    (content_type : Option String) : InitMultipartResponse × ApiState :=
  let _ := content_type
  ({ upload_id := upload_id, filename := filename
   , object_name := upload_id ++ "/" ++ filename
   , message := "Multipart upload initialized. Upload parts using /upload/multipart/part endpoint." }
  , s)

/-- Response of POST /upload/multipart/part (upload.py lines 129-133). -/
structure UploadPartResponse where
  upload_id : String
  part_number : Int
  status : String
deriving DecidableEq

/-- POST /upload/multipart/part (upload.py lines 115-137): the actual
part upload and ETag storage are TODOs (line 125); the handler returns
status "uploaded" unconditionally and touches no state, whatever the
session or its history. -/
def upload_part (s : ApiState) (upload_id : String) (part_number : Int)
    (part_data : String) : UploadPartResponse × ApiState :=
  let _ := part_data
  ({ upload_id := upload_id, part_number := part_number
   , status := "uploaded" }, s)

/-- Response of POST /upload/multipart/complete (upload.py lines 151-155). -/
structure CompleteMultipartResponse where
  upload_id : String
  status : String
  message : String
deriving DecidableEq

/-- POST /upload/multipart/complete (upload.py lines 140-159): the
MinIO compose and the workflow trigger are TODOs (lines 146-147); the
handler returns status "completed" unconditionally, performs no
compose and writes nothing. -/
def complete_multipart_upload (s : ApiState) (upload_id : String) :
    CompleteMultipartResponse × ApiState :=
  ({ upload_id := upload_id, status := "completed"
   , message := "Upload completed successfully" }, s)

/-- Response of DELETE /upload/{upload_id} (upload.py lines 173-176). -/
structure CancelUploadResponse where
  upload_id : String
  status : String
deriving DecidableEq

/-- DELETE /upload/{upload_id} (upload.py lines 162-180): the MinIO
deletion and database update are TODOs (lines 168-169); the handler
returns status "cancelled" and touches no state. -/
def cancel_upload (s : ApiState) (upload_id : String) :
    CancelUploadResponse × ApiState :=
  ({ upload_id := upload_id, status := "cancelled" }, s)

/-- Response of GET /upload/{upload_id}/status (status.py lines 38-48). -/
structure StatusResponse where
  upload_id : String
  filename : String
  file_size : Nat
  content_type : Option String
  upload_status : String
  processing_status : Option String
  created_at : Option Nat
  completed_at : Option Nat
  metadata : Option String
deriving DecidableEq

/-- GET /upload/{upload_id}/status (status.py lines 12-54): a SELECT
of the row with the given id (`none` models the 404); the state is
returned untouched. -/
def get_upload_status (s : ApiState) (upload_id : String) :
    Option StatusResponse × ApiState :=
  ( match s.uploads.find? (fun r => r.id == upload_id) with
    | none => none
    | some r =>
      some { upload_id := r.id, filename := r.filename
           , file_size := r.file_size, content_type := r.content_type
           , upload_status := r.upload_status
           , processing_status := r.processing_status
           , created_at := some r.created_at
           , completed_at := r.completed_at, metadata := r.metadata }
  , s)

/-- One element of the `uploads` array of GET /uploads
(status.py lines 80-87). -/
structure UploadSummary where
  upload_id : String
  filename : String
  file_size : Nat
  upload_status : String
  processing_status : Option String
  created_at : Option Nat
deriving DecidableEq

/-- Projection of a row to the list-endpoint summary
(status.py lines 80-87). -/
def rowSummary (r : UploadRow) : UploadSummary :=
  { upload_id := r.id, filename := r.filename, file_size := r.file_size
  , upload_status := r.upload_status
  , processing_status := r.processing_status
  , created_at := some r.created_at }

/-- The ORDER BY created_at DESC relation of status.py line 72:
row `a` may precede row `b` when `b` was created no later than `a`. -/
def newestFirst (a b : UploadRow) : Prop :=
  b.created_at ≤ a.created_at

instance : DecidableRel newestFirst :=
  fun a b => Nat.decLe b.created_at a.created_at

instance : IsTotal UploadRow newestFirst :=
  ⟨fun a b => Nat.le_total b.created_at a.created_at⟩

instance : IsTrans UploadRow newestFirst :=
  ⟨fun _ _ _ h1 h2 => Nat.le_trans h2 h1⟩

/-- Same newest-first relation on the returned summaries (their
`created_at` is always populated by `rowSummary`). -/
def summaryNewestFirst (a b : UploadSummary) : Prop :=
  b.created_at.getD 0 ≤ a.created_at.getD 0

/-- Response of GET /uploads (status.py lines 89-94). -/
structure ListUploadsResponse where
  uploads : List UploadSummary
  count : Nat
  limit : Nat
  offset : Nat
deriving DecidableEq

/-- GET /uploads (status.py lines 57-98): SELECT ... ORDER BY
created_at DESC LIMIT $1 OFFSET $2, summaries built per row, `count`
the length of the returned array; the state is returned untouched. -/
def list_uploads (s : ApiState) (limit offset : Nat) :
    ListUploadsResponse × ApiState :=
  let rows :=
    ((List.insertionSort newestFirst s.uploads).drop offset).take limit
  let ups := rows.map rowSummary
  ({ uploads := ups, count := ups.length, limit := limit, offset := offset }
  , s)

/-- Activity extract_text (worker.py lines 17-22): placeholder body. -/
def extract_text (document_id : String) : String :=
  let _ := document_id
  "Extracted text placeholder"

/-- Activity chunk_document (worker.py lines 25-30): placeholder body
returning a fixed three-chunk list. -/
def chunk_document (text : String) : List String :=
  let _ := text
  ["chunk1", "chunk2", "chunk3"]

/-- Activity generate_embeddings (worker.py lines 33-38): one
1536-entry placeholder vector per input chunk. -/
def generate_embeddings (chunks : List String) : List (List Float) :=
  chunks.map (fun _ => List.replicate 1536 (0.1 : Float))

/-- Activity store_embeddings (worker.py lines 41-46): the database
insert is a TODO; the activity returns True for every input. -/
def store_embeddings (document_id : String) (chunks : List String)
    (embeddings : List (List Float)) : Bool :=
  let _ := document_id
  let _ := chunks
  let _ := embeddings
  true

/-- Result dictionary of DocumentProcessingWorkflow.run
(worker.py lines 84-88). -/
structure WorkflowResult where
  document_id : String
  chunks_count : Nat
  status : String
deriving DecidableEq

/-- DocumentProcessingWorkflow.run (worker.py lines 50-88): extract,
chunk, embed, store in sequence, status "completed" when store
returned True and "failed" otherwise. -/
def DocumentProcessingWorkflow.run (document_id : String) :
    WorkflowResult :=
  let text := extract_text document_id
  let chunks := chunk_document text
  let embeddings := generate_embeddings chunks
  let stored := store_embeddings document_id chunks embeddings
  { document_id := document_id
  , chunks_count := chunks.length
  , status := if stored then "completed" else "failed" }

/-- Concrete row of a session recorded as completed, for witnesses. -/
def sampleRow : UploadRow :=
  { id := "u1", filename := "f.pdf", file_size := 4
  , content_type := some "application/pdf"
  , minio_bucket := "document-uploads", minio_key := "u1/f.pdf"
  , upload_status := "completed", processing_status := none
  , created_at := 10, completed_at := some 12, metadata := none }

/-- Concrete store state holding the one completed session. -/
def sampleState : ApiState :=
  { uploads := [sampleRow], objects := [], composeOps := 0 }

/-- C1: the claim says CompleteSession succeeds iff the part numbers
are contiguous 1..N and that parts {1,2,4} make it fail with
IncompleteUpload, a success creating a Queued DocumentRecord.  The
source handler records no parts at all and, for every state of the
store and every upload_id — hence also for a session whose uploaded
parts are {1,2,4} — returns status "completed" and leaves the store
unchanged, creating no document record. -/
theorem complete_ignores_parts (s : ApiState) (uid : String) :
    (complete_multipart_upload s uid).1.status = "completed" ∧
    (complete_multipart_upload s uid).2 = s :=
  ⟨rfl, rfl⟩

/-- C2: on a session already recorded as completed, a second
CompleteSession call returns the very same response (hence the same
returned identifier) as the first, and the number of compose
operations performed on the object store is unchanged — no second
compose happens. -/
theorem complete_idempotent (s : ApiState) (uid : String)
    (h : ∃ r ∈ s.uploads, r.id = uid ∧ r.upload_status = "completed") :
    (complete_multipart_upload (complete_multipart_upload s uid).2 uid).1
      = (complete_multipart_upload s uid).1 ∧
    (complete_multipart_upload (complete_multipart_upload s uid).2 uid).2.composeOps
      = s.composeOps := by
  exact ⟨rfl, rfl⟩

/-- Witness for C2 at the concrete completed session `sampleState`. -/
theorem complete_idempotent_witness :
    (∃ r ∈ sampleState.uploads,
        r.id = "u1" ∧ r.upload_status = "completed") ∧
    ((complete_multipart_upload
        (complete_multipart_upload sampleState "u1").2 "u1").1
      = (complete_multipart_upload sampleState "u1").1 ∧
     (complete_multipart_upload
        (complete_multipart_upload sampleState "u1").2 "u1").2.composeOps
      = sampleState.composeOps) :=
  ⟨by decide, complete_idempotent sampleState "u1" (by decide)⟩

/-- C3: the Chunk activity is deterministic — two runs on the same
extracted text return the same chunk list, and pairing each chunk with
its sequence index gives the same indexed list in both runs. -/
theorem chunk_document_deterministic (t₁ t₂ : String) (h : t₁ = t₂) :
    chunk_document t₁ = chunk_document t₂ ∧
    (chunk_document t₁).enum = (chunk_document t₂).enum := by
  subst h
  exact ⟨rfl, rfl⟩

/-- Witness for C3 at a concrete extracted text. -/
theorem chunk_document_deterministic_witness :
    ("Extracted text placeholder" : String) = "Extracted text placeholder" ∧
    (chunk_document "Extracted text placeholder"
       = chunk_document "Extracted text placeholder" ∧
     (chunk_document "Extracted text placeholder").enum
       = (chunk_document "Extracted text placeholder").enum) :=
  ⟨rfl, chunk_document_deterministic _ _ rfl⟩

/-- C4: the claim says UploadPart on a Completed or Aborted session
fails with SessionClosed, in particular after AbortSession.  In the
source, cancel_upload updates nothing and upload_part reports status
"uploaded" unconditionally: for every state, session and part number,
an upload_part issued right after cancel_upload on the same session
still returns "uploaded", not an error. -/
theorem upload_part_after_cancel_reports_uploaded
    (s : ApiState) (uid pd : String) (pn : Int) :
    (cancel_upload s uid).1.status = "cancelled" ∧
    (upload_part (cancel_upload s uid).2 uid pn pd).1.status
      = "uploaded" ∧
    (upload_part (cancel_upload s uid).2 uid pn pd).2 = s :=
  ⟨rfl, rfl, rfl⟩

/-- C5: the claim says an init request with an empty filename fails
with InvalidInput and creates no session.  The source handler has no
filename validation: with the empty filename it returns the normal
success response (upload_id set, object key `{upload_id}/`) — and it
creates no session row for any filename, the store being returned
unchanged. -/
theorem init_empty_filename_succeeds
    (s : ApiState) (uid : String) (ct : Option String) :
    (init_multipart_upload s uid "" ct).1.upload_id = uid ∧
    (init_multipart_upload s uid "" ct).1.object_name = uid ++ "/" ∧
    (init_multipart_upload s uid "" ct).2 = s := by
  refine ⟨rfl, ?_, rfl⟩
  simp [init_multipart_upload]

/-- C6: the Status Reporter endpoints never mutate persisted state:
for every store state and every argument, the state after
GET /upload/{id}/status and after GET /uploads equals the state
before. -/
theorem status_endpoints_read_only
    (s : ApiState) (uid : String) (limit offset : Nat) :
    (get_upload_status s uid).2 = s ∧
    (list_uploads s limit offset).2 = s :=
  ⟨rfl, rfl⟩

/-- C7: GET /uploads returns exactly the stored rows sorted
newest-first by creation time with the first `offset` rows of that
order skipped and at most `limit` rows kept; the returned list is
sorted newest-first, its length is at most `limit`, and `count` equals
the number of rows returned. -/
theorem list_uploads_pagination (s : ApiState) (limit offset : Nat) :
    (list_uploads s limit offset).1.uploads
      = (((List.insertionSort newestFirst s.uploads).drop offset).take
          limit).map rowSummary ∧
    (list_uploads s limit offset).1.count
      = (list_uploads s limit offset).1.uploads.length ∧
    (list_uploads s limit offset).1.uploads.length ≤ limit ∧
    List.Sorted summaryNewestFirst (list_uploads s limit offset).1.uploads := by
  refine ⟨rfl, rfl, ?_, ?_⟩
  · simp only [list_uploads, List.length_map, List.length_take]
    exact Nat.min_le_left _ _
  · have hsorted :
        List.Sorted newestFirst
          (List.insertionSort newestFirst s.uploads) :=
      List.sorted_insertionSort newestFirst s.uploads
    have hsub :
        (((List.insertionSort newestFirst s.uploads).drop offset).take
            limit).Sublist
          (List.insertionSort newestFirst s.uploads) :=
      (List.take_sublist _ _).trans (List.drop_sublist _ _)
    have hsorted' :
        List.Sorted newestFirst
          (((List.insertionSort newestFirst s.uploads).drop offset).take
            limit) :=
      hsorted.sublist hsub
    exact List.Pairwise.map rowSummary (fun a b hab => hab) hsorted'

/-- C8: the object key is derived as `{upload_id}/{filename}` by both
the single-shot upload and the multipart init; the single-shot upload
persists that key as the minio_key of the inserted row, but the
multipart init persists nothing at all (its database write is a TODO),
so no object reference is stored for a multipart session. -/
theorem object_key_layout (s : ApiState) (uid fn : String)
    (ct : Option String) (content : String) (t : Nat) :
    ((upload_file s uid fn ct content t).2.uploads.map
        (fun r => r.minio_key))
      = s.uploads.map (fun r => r.minio_key) ++ [uid ++ "/" ++ fn] ∧
    (init_multipart_upload s uid fn ct).1.object_name
      = uid ++ "/" ++ fn ∧
    (init_multipart_upload s uid fn ct).2.uploads = s.uploads := by
  refine ⟨?_, rfl, rfl⟩
  simp [upload_file]

/-- C9: the embedding activity returns exactly one vector per input
chunk, and every returned vector has length 1536, the configured
embedding dimensionality, uniformly in the chunk contents. -/
theorem generate_embeddings_shape (chunks : List String) :
    (generate_embeddings chunks).length = chunks.length ∧
    (generate_embeddings chunks).all
      (fun v => v.length == settings.embedding_dimensions) = true := by
  constructor
  · unfold generate_embeddings
    exact List.length_map _ _
  · rw [List.all_eq_true]
    intro v hv
    unfold generate_embeddings at hv
    rw [List.mem_map] at hv
    obtain ⟨c, _, rfl⟩ := hv
    rw [List.length_replicate]
    rfl

/-- C10: for every document id, the workflow result has status
"completed" and chunks_count 3; the "failed" branch is unreachable
because store_embeddings returns True for every input. -/
theorem workflow_run_always_completes (doc d : String)
    (c : List String) (e : List (List Float)) :
    (DocumentProcessingWorkflow.run doc).status = "completed" ∧
    (DocumentProcessingWorkflow.run doc).chunks_count = 3 ∧
    store_embeddings d c e = true :=
  ⟨rfl, rfl, rfl⟩

end CompanyKB
